import Mathlib

/-!
Verification of the session lifecycle manager of `padma-baileys-wapp-api`.

The definitions below are a shallow embedding of `src/helpers.js` (the
session registry, the reconnection state machine with exponential backoff,
the QR single-slot bridge, session deletion) together with the parts of
`use_redis_auth_state.js` (credential load/delete) and `middlewares.js`
(API-key gate) that the claims touch.  JavaScript `Map`s are embedded as
association lists with `set`/`delete`/`has`/`get`/`keys` mirroring the
`Map` API; `Date.now()` timestamps are `Nat` milliseconds; `Math.random()`
is an explicit rational parameter `rand` with `0 ≤ rand < 1`; the sockets
returned by `makeConfiggedWASocket` are numeric tokens drawn from a
`nextSock` counter, and every call to it bumps an `openCount` counter so
that "how many underlying connections were opened" is observable.
-/

namespace Padma

/-! ### JavaScript `Map` embedding -/

/-- `Map.prototype.get`. -/
def mapGet {α : Type} (m : List (String × α)) (k : String) : Option α :=
  match m with
  | [] => none
  | (k0, v) :: rest => if k0 = k then some v else mapGet rest k

/-- `Map.prototype.has`. -/
def mapHas {α : Type} (m : List (String × α)) (k : String) : Bool :=
  (mapGet m k).isSome

/-- `Map.prototype.set`: replaces in place when the key exists, otherwise
appends (JS `Map` keeps insertion order). -/
def mapSet {α : Type} (m : List (String × α)) (k : String) (v : α) :
    List (String × α) :=
  match m with
  | [] => [(k, v)]
  | (k0, v0) :: rest =>
      if k0 = k then (k0, v) :: rest else (k0, v0) :: mapSet rest k v

/-- `Map.prototype.delete`.  A JS `Map` holds each key at most once, so
removing every matching entry coincides with the `Map` behaviour while
keeping the lemmas below unconditional. -/
def mapDelete {α : Type} (m : List (String × α)) (k : String) :
    List (String × α) :=
  match m with
  | [] => []
  | (k0, v0) :: rest =>
      if k0 = k then mapDelete rest k else (k0, v0) :: mapDelete rest k

/-- `Array.from(map.keys())`. -/
def mapKeys {α : Type} (m : List (String × α)) : List String := m.map Prod.fst

/-! ### Disconnect reason codes (constants of the external baileys client) -/

namespace DisconnectReason

def restartRequired : Nat := 515
def loggedOut : Nat := 401
def timedOut : Nat := 408
def connectionClosed : Nat := 428
def connectionLost : Nat := 408
def connectionReplaced : Nat := 440

end DisconnectReason

/-! ### Exponential backoff (`calculateBackoff`, helpers.js lines 22-27) -/

/-- The deterministic part of the backoff delay:
`Math.min(baseDelay * Math.pow(2, attempts), maxDelay)`. -/
def backoffDelay (attempts : Nat) : ℚ :=
  min (1000 * 2 ^ attempts) 300000

/-- `calculateBackoff(attempts)` from helpers.js, with `Math.random()`
made explicit as the parameter `rand` (`0 ≤ rand < 1`):
`delay + Math.random() * 1000`. -/
def calculateBackoff (attempts : Nat) (rand : ℚ) : ℚ :=
  backoffDelay attempts + rand * 1000

/-! ### Data model of `helpers.js` -/

/-- One entry of the `sessions` map: `{ sock, store, getNewQr }`.  The
socket handle is a numeric token; the `store` and the `getNewQr` closure
carry no state the claims depend on. -/
structure SessionEntry where
  sock : Nat
deriving Repr, DecidableEq

/-- One entry of the `reconnectionAttempts` map:
`{ attempts, lastAttempt, backoffMs }`. -/
structure ReconnectInfo where
  attempts : Nat
  lastAttempt : Nat
  backoffMs : ℚ
deriving Repr, DecidableEq

/-- A redis hash: field name to serialized value (sessions live at key
`sessionId` with a `creds` field plus key fields). -/
abbrev RedisHash := List (String × String)

/-- The QR single-slot bridge of one `createSession` closure: `qrResolver`
holds at most one pending promise (a numeric token), `resolved` logs which
promise was resolved with which QR string. -/
structure QrBridge where
  waiter : Option Nat
  resolved : List (Nat × String)
  nextWaiter : Nat
deriving Repr, DecidableEq

/-- The `if (qr && qrResolver) { qrResolver(qr); qrResolver = null; }`
step of the `connection.update` handler (helpers.js lines 166-169),
seen as an operation on the bridge: resolve the current waiter if one
exists, otherwise drop the value.  A JS empty string is falsy, hence the
`q ≠ ""` guard. -/
def deliverChallenge (b : QrBridge) (q : String) : QrBridge :=
  if q ≠ "" then
    match b.waiter with
    | some w => { b with waiter := none, resolved := (w, q) :: b.resolved }
    | none => b
  else b

/-- `getNewQr` (helpers.js lines 247-251): create a fresh promise and
make its resolver the (single) `qrResolver` slot, replacing any previous
waiter. -/
def getNewQr (b : QrBridge) : Nat × QrBridge :=
  (b.nextWaiter,
   { b with waiter := some b.nextWaiter, nextWaiter := b.nextWaiter + 1 })

/-- How many times promise `w` was resolved. -/
def countResolved (b : QrBridge) (w : Nat) : Nat :=
  (b.resolved.filter fun p => decide (p.1 = w)).length

/-- Every logged or waiting promise token was handed out before
`nextWaiter`: true of every bridge reachable from the initial one. -/
def qrWf (b : QrBridge) : Prop :=
  (∀ p ∈ b.resolved, p.1 < b.nextWaiter) ∧
  (∀ w, b.waiter = some w → w < b.nextWaiter)

/-- An arbitrary later interaction with the bridge. -/
inductive QrOp where
  | deliver (q : String)
  | register
deriving Repr, DecidableEq

def applyQrOp (b : QrBridge) (op : QrOp) : QrBridge :=
  match op with
  | QrOp.deliver q => deliverChallenge b q
  | QrOp.register => (getNewQr b).2

def runQrOps (b : QrBridge) (ops : List QrOp) : QrBridge :=
  ops.foldl applyQrOp b

/-- The mutable state of `helpers.js`: the two module-level maps, the
pending `setTimeout` reconnect callbacks, the redis contents, plus
instrumentation (sockets `.end()`ed, sockets opened, credential loads). -/
structure HelpersState where
  sessions : List (String × SessionEntry)
  reconnectionAttempts : List (String × ReconnectInfo)
  pendingTimers : List String
  redis : List (String × RedisHash)
  qr : QrBridge
  closedSocks : List Nat
  nextSock : Nat
  openCount : Nat
  credLoads : Nat
deriving Repr, DecidableEq

/-- `makeConfiggedWASocket`: opens one fresh underlying connection and
returns its handle token. -/
def makeConfiggedWASocket (st : HelpersState) : Nat × HelpersState :=
  (st.nextSock,
   { st with nextSock := st.nextSock + 1, openCount := st.openCount + 1 })

/-- `useRedisAuthState(id)` reads `hGet(sessionId, 'creds')`; the model
keeps only the load counter here, `loadCreds` below gives the value. -/
inductive Creds where
  | fresh
  | stored (blob : String)
deriving Repr, DecidableEq

/-- `initAuthCreds()` of the baileys client: a freshly initialized empty
credential set. -/
def initAuthCreds : Creds := Creds.fresh

/-- `redisClient.hGet(key, field)`. -/
def redisHGet (redis : List (String × RedisHash)) (key field : String) :
    Option String :=
  (mapGet redis key).bind fun h => mapGet h field

/-- The credential-load part of `useRedisAuthState(sessionId)`
(use_redis_auth_state.js): stored creds when the hash has a `creds`
field, otherwise `initAuthCreds()`. -/
def loadCreds (redis : List (String × RedisHash)) (sessionId : String) :
    Creds :=
  match redisHGet redis sessionId "creds" with
  | some s => Creds.stored s
  | none => initAuthCreds

/-- `getActiveSessions` (helpers.js lines 262-264). -/
def getActiveSessions (st : HelpersState) : List String :=
  mapKeys st.sessions

/-- `deleteSession(sessionId)` (helpers.js lines 270-284): best-effort
`sock.end()`, remove from `sessions` and `reconnectionAttempts`, delete
the redis key.  It does NOT clear any pending reconnect timer. -/
def deleteSession (st : HelpersState) (sessionId : String) : HelpersState :=
  let closed :=
    match mapGet st.sessions sessionId with
    | some s => s.sock :: st.closedSocks
    | none => st.closedSocks
  { st with
    sessions := mapDelete st.sessions sessionId,
    reconnectionAttempts := mapDelete st.reconnectionAttempts sessionId,
    redis := mapDelete st.redis sessionId,
    closedSocks := closed }

/-- `shouldAttemptReconnection(sessionId)` (helpers.js lines 34-41),
with `Date.now()` passed in as `now`. -/
def shouldAttemptReconnection (st : HelpersState) (sessionId : String)
    (now : Nat) : Bool :=
  match mapGet st.reconnectionAttempts sessionId with
  | none => true
  | some info => decide (info.backoffMs ≤ (now : ℚ) - info.lastAttempt)

/-- `createSession(id)` (helpers.js lines 150-256), sequential semantics:
early return when registered, otherwise load credentials, open a socket
and publish the session. -/
def createSession (st : HelpersState) (id : String) :
    SessionEntry × HelpersState :=
  match mapGet st.sessions id with
  | some s => (s, st)
  | none =>
      let st1 := { st with credLoads := st.credLoads + 1 }
      let (sock, st2) := makeConfiggedWASocket st1
      let entry : SessionEntry := ⟨sock⟩
      (entry, { st2 with sessions := mapSet st2.sessions id entry })

/-! ### The `connection.update` handler (helpers.js lines 164-244) -/

/-- The `connection` field of a `connection.update` event. -/
inductive ConnStatus where
  | opened
  | closed
deriving Repr, DecidableEq

/-- A `connection.update` event: `{ connection, lastDisconnect, qr }`,
with `reason = lastDisconnect?.error?.output?.statusCode`. -/
structure ConnectionUpdate where
  connection : Option ConnStatus
  reason : Option Nat
  qrField : Option String
deriving Repr, DecidableEq

/-- The old-socket cleanup block (helpers.js lines 179-186 and 205-213):
`oldSession.sock.end()` when a registered socket differs from the
handler's own `sock`. -/
def endOldSock (st : HelpersState) (id : String) (handlerSock : Nat) :
    HelpersState :=
  match mapGet st.sessions id with
  | some oldSession =>
      if oldSession.sock ≠ handlerSock then
        { st with closedSocks := oldSession.sock :: st.closedSocks }
      else st
  | none => st

/-- The `if (qr && qrResolver)` delivery step at the top of the handler
(helpers.js lines 166-169). -/
def deliverQr (st : HelpersState) (q : Option String) : HelpersState :=
  match q with
  | some s => { st with qr := deliverChallenge st.qr s }
  | none => st

/-- Whether the reason code is one of the four transient causes
(helpers.js lines 195-200). -/
def isTransientReason (reason : Option Nat) : Bool :=
  decide (reason = some DisconnectReason.timedOut ∨
    reason = some DisconnectReason.connectionClosed ∨
    reason = some DisconnectReason.connectionLost ∨
    reason = some DisconnectReason.connectionReplaced)

/-- The `connection.update` handler installed by `createSession`
(helpers.js lines 164-244).  `handlerSock` is the socket the closure's
`sock` refers to, `now` is `Date.now()` and `rand` is the `Math.random()`
draw used if a backoff is computed. -/
def handleConnectionUpdate (st : HelpersState) (id : String)
    (handlerSock : Nat) (u : ConnectionUpdate) (now : Nat) (rand : ℚ) :
    HelpersState :=
  let st := deliverQr st u.qrField
  match u.connection with
  | some ConnStatus.closed =>
      if u.reason = some DisconnectReason.restartRequired then
        let st1 := endOldSock st id handlerSock
        let (newSock, st2) := makeConfiggedWASocket st1
        { st2 with
          sessions := mapSet st2.sessions id ⟨newSock⟩,
          reconnectionAttempts := mapDelete st2.reconnectionAttempts id }
      else if u.reason = some DisconnectReason.loggedOut then
        deleteSession st id
      else if isTransientReason u.reason then
        if shouldAttemptReconnection st id now then
          let st1 := endOldSock st id handlerSock
          let info :=
            (mapGet st1.reconnectionAttempts id).getD ⟨0, 0, 0⟩
          let info2 : ReconnectInfo :=
            { attempts := info.attempts + 1, lastAttempt := now,
              backoffMs := calculateBackoff (info.attempts + 1) rand }
          { st1 with
            reconnectionAttempts := mapSet st1.reconnectionAttempts id info2,
            pendingTimers := st1.pendingTimers ++ [id] }
        else st
      else
        deleteSession st id
  | _ => st

/-- Remove the first occurrence (a fired one-shot timer). -/
def eraseFirst (l : List String) (x : String) : List String :=
  match l with
  | [] => []
  | y :: rest => if y = x then rest else y :: eraseFirst rest x

/-- The `setTimeout` reconnect callback (helpers.js lines 225-235): make a
new socket, publish it, reset the backoff entry; on failure
(`makeConfiggedWASocket` throwing, `ok = false`) only log.  Note the
callback never checks whether the session is still registered. -/
def fireReconnectTimer (st : HelpersState) (id : String) (ok : Bool) :
    HelpersState :=
  let st1 := { st with pendingTimers := eraseFirst st.pendingTimers id }
  if ok then
    let (newSock, st2) := makeConfiggedWASocket st1
    { st2 with
      sessions := mapSet st2.sessions id ⟨newSock⟩,
      reconnectionAttempts := mapDelete st2.reconnectionAttempts id }
  else st1

/-! ### Race model for `createSession` (C1)

`createSession` is `async`: the `sessions.has(id)` check runs
synchronously at call time, then `useRedisAuthState`, `makeRedisStore`
and `makeConfiggedWASocket` are awaited (suspension points), then
`sessions.set(id, session)` runs.  Two concurrent calls on the same id
are therefore each two atomic steps — the check, and the
load+open+publish tail — interleaved by a schedule. -/

/-- Where one caller of `createSession(id)` is in its execution. -/
inductive CallerPhase where
  | ready
  | passedCheck
  | finished (sock : Nat)
deriving Repr, DecidableEq

/-- The two racing callers. -/
inductive Caller where
  | A
  | B
deriving Repr, DecidableEq

/-- Shared registry slot for the one contended id, plus the two callers'
positions and instrumentation counters. -/
structure RaceState where
  registry : Option Nat
  openCount : Nat
  credLoads : Nat
  nextSock : Nat
  pcA : CallerPhase
  pcB : CallerPhase
deriving Repr, DecidableEq

def getPc (st : RaceState) (c : Caller) : CallerPhase :=
  match c with
  | Caller.A => st.pcA
  | Caller.B => st.pcB

def setPc (st : RaceState) (c : Caller) (p : CallerPhase) : RaceState :=
  match c with
  | Caller.A => { st with pcA := p }
  | Caller.B => { st with pcB := p }

/-- One atomic step of caller `c`'s `createSession(id)` run: the
check-then-return fast path, or the awaited load+open+publish tail. -/
def raceStep (st : RaceState) (c : Caller) : RaceState :=
  match getPc st c with
  | CallerPhase.ready =>
      match st.registry with
      | some s => setPc st c (CallerPhase.finished s)
      | none => setPc st c CallerPhase.passedCheck
  | CallerPhase.passedCheck =>
      let sock := st.nextSock
      let st1 :=
        { st with
          registry := some sock, openCount := st.openCount + 1,
          credLoads := st.credLoads + 1, nextSock := st.nextSock + 1 }
      setPc st1 c (CallerPhase.finished sock)
  | CallerPhase.finished _ => st

/-- Run a schedule of interleaved caller steps. -/
def raceRun (st : RaceState) (sched : List Caller) : RaceState :=
  sched.foldl raceStep st

/-- Initial state: no session for the id, no connection opened yet. -/
def raceInit : RaceState :=
  { registry := none, openCount := 0, credLoads := 0, nextSock := 1,
    pcA := CallerPhase.ready, pcB := CallerPhase.ready }

/-! ### API-key middleware (`middlewares.js` lines 22-30) -/

/-- Outcome of running one request through `apiKeyAuth(apiKey)` and then
a route handler: the status code, the helpers state afterwards, and
whether the route handler ran at all. -/
structure RequestOutcome where
  status : Nat
  state : HelpersState
  handlerRan : Bool
deriving Repr, DecidableEq

/-- `apiKeyAuth(apiKey)`'s test on `req.headers['x-api-key']`:
`!key || key !== apiKey` (an absent header is `undefined`, and the empty
string is also falsy). -/
def apiKeyRejects (apiKey : String) (key : Option String) : Bool :=
  match key with
  | none => true
  | some k => decide (k = "") || decide (k ≠ apiKey)

/-- One request through `app.use(apiKeyAuth(API_KEY))` followed by a
route handler: the middleware answers 401 without calling `next()`, or
the handler runs on the state. -/
def processRequest (apiKey : String) (key : Option String)
    (handler : HelpersState → HelpersState × Nat) (st : HelpersState) :
    RequestOutcome :=
  if apiKeyRejects apiKey key then
    { status := 401, state := st, handlerRan := false }
  else
    let (st1, code) := handler st
    { status := code, state := st1, handlerRan := true }

/-! ### Concrete events and sample states -/

/-- A `connection.update` reporting `open` (no `qr`, no disconnect). -/
def openEvent : ConnectionUpdate :=
  { connection := some ConnStatus.opened, reason := none, qrField := none }

/-- A `connection.update` reporting `close` with the given status code. -/
def closeEvent (r : Option Nat) : ConnectionUpdate :=
  { connection := some ConnStatus.closed, reason := r, qrField := none }

/-- One registered session `"s1"` (socket 1) with persisted credentials
and no reconnection tracking. -/
def oneSessionState : HelpersState :=
  { sessions := [("s1", ⟨1⟩)], reconnectionAttempts := [],
    pendingTimers := [],
    redis := [("s1", [("creds", "blob")])],
    qr := { waiter := none, resolved := [], nextWaiter := 0 },
    closedSocks := [], nextSock := 2, openCount := 1, credLoads := 1 }

/-- Like `oneSessionState` but mid-backoff: three consecutive failures
recorded, last attempt at t = 0 with a 2000 ms backoff. -/
def midBackoffState : HelpersState :=
  { oneSessionState with
    reconnectionAttempts :=
      [("s1", { attempts := 3, lastAttempt := 0, backoffMs := 2000 })] }

/-! ### Map lemmas -/

theorem mapGet_mapDelete_self {α : Type} (m : List (String × α))
    (k : String) : mapGet (mapDelete m k) k = none := by
  induction m with
  | nil => rfl
  | cons p rest ih =>
      obtain ⟨k0, v0⟩ := p
      by_cases h : k0 = k
      · simpa [mapDelete, h] using ih
      · simpa [mapDelete, mapGet, h] using ih

theorem not_mem_mapKeys_mapDelete {α : Type} (m : List (String × α))
    (k : String) : k ∉ mapKeys (mapDelete m k) := by
  induction m with
  | nil => simp [mapDelete, mapKeys]
  | cons p rest ih =>
      obtain ⟨k0, v0⟩ := p
      by_cases h : k0 = k
      · simpa [mapDelete, h] using ih
      · simp only [mapDelete, if_neg h, mapKeys, List.map_cons,
          List.mem_cons]
        push_neg
        exact ⟨fun hk => h hk.symm, by simpa [mapKeys] using ih⟩

theorem mapGet_mapSet_self {α : Type} (m : List (String × α)) (k : String)
    (v : α) : mapGet (mapSet m k v) k = some v := by
  induction m with
  | nil => simp [mapSet, mapGet]
  | cons p rest ih =>
      obtain ⟨k0, v0⟩ := p
      by_cases h : k0 = k
      · simp [mapSet, mapGet, h]
      · simp [mapSet, mapGet, h, ih]

theorem endOldSock_reconnectionAttempts (st : HelpersState) (id : String)
    (hsock : Nat) :
    (endOldSock st id hsock).reconnectionAttempts =
      st.reconnectionAttempts := by
  unfold endOldSock
  cases mapGet st.sessions id with
  | none => rfl
  | some s => by_cases h : s.sock ≠ hsock <;> simp [h]

/-! ### Theorems -/

theorem backoffDelay_mono {a b : Nat} (h : a ≤ b) :
    backoffDelay a ≤ backoffDelay b := by
  unfold backoffDelay
  apply min_le_min _ le_rfl
  have h2 : (2 : ℚ) ^ a ≤ 2 ^ b := by
    apply pow_le_pow_right₀ ?_ h
    norm_num
  nlinarith

theorem backoffDelay_le (a : Nat) : backoffDelay a ≤ 300000 :=
  min_le_right _ _

theorem backoffDelay_capped {a : Nat} (h : 9 ≤ a) :
    backoffDelay a = 300000 := by
  unfold backoffDelay
  apply min_eq_right
  have h2 : (2 : ℚ) ^ 9 ≤ 2 ^ a := by
    apply pow_le_pow_right₀ ?_ h
    norm_num
  nlinarith

/-- C2: For every attempts value `a ≥ 0`, the computed backoff delay
satisfies `min(1000 * 2^a, 300000) ≤ calculateBackoff(a) <
min(1000 * 2^a, 300000) + 1000`, hence is always strictly less than
301000 ms, and the deterministic part is monotonically non-decreasing in
`a` until capped at 300000 ms. -/
theorem calculateBackoff_bounds (a : Nat) (rand : ℚ)
    (h0 : 0 ≤ rand) (h1 : rand < 1) :
    backoffDelay a ≤ calculateBackoff a rand ∧
    calculateBackoff a rand < backoffDelay a + 1000 ∧
    calculateBackoff a rand < 301000 ∧
    (∀ b : Nat, a ≤ b → backoffDelay a ≤ backoffDelay b) ∧
    (9 ≤ a → backoffDelay a = 300000) := by
  refine ⟨?_, ?_, ?_, fun b h => backoffDelay_mono h, fun h => backoffDelay_capped h⟩
  · unfold calculateBackoff
    nlinarith
  · unfold calculateBackoff
    nlinarith
  · unfold calculateBackoff
    have := backoffDelay_le a
    nlinarith

/-- Witness for C2 at `a = 3`, `rand = 1/2`. -/
theorem calculateBackoff_bounds_witness :
    (0 : ℚ) ≤ 1 / 2 ∧ (1 / 2 : ℚ) < 1 ∧
    (backoffDelay 3 ≤ calculateBackoff 3 (1 / 2) ∧
     calculateBackoff 3 (1 / 2) < backoffDelay 3 + 1000 ∧
     calculateBackoff 3 (1 / 2) < 301000 ∧
     (∀ b : Nat, 3 ≤ b → backoffDelay 3 ≤ backoffDelay b) ∧
     (9 ≤ 3 → backoffDelay 3 = 300000)) :=
  ⟨by norm_num, by norm_num,
   calculateBackoff_bounds 3 (1 / 2) (by norm_num) (by norm_num)⟩

/-- C1: the claim asks that two concurrent `createSession(id)` calls on
the same id open exactly one underlying connection and hand both callers
the same Session (an atomic slot reservation).  The source's
check-then-set pattern violates this: under the schedule A-check,
B-check, A-tail, B-tail both callers pass the `sessions.has(id)` check,
two connections are opened (`openCount = 2`), caller A finishes with
socket 1, caller B with socket 2, and B's publish overwrites A's. -/
theorem createSession_race_opens_two :
    (raceRun raceInit [Caller.A, Caller.B, Caller.A, Caller.B]).openCount
      = 2 ∧
    (raceRun raceInit [Caller.A, Caller.B, Caller.A, Caller.B]).pcA
      = CallerPhase.finished 1 ∧
    (raceRun raceInit [Caller.A, Caller.B, Caller.A, Caller.B]).pcB
      = CallerPhase.finished 2 ∧
    (raceRun raceInit [Caller.A, Caller.B, Caller.A, Caller.B]).registry
      = some 2 ∧
    CallerPhase.finished 1 ≠ CallerPhase.finished 2 := by
  decide

/-- C9: `createSession(id)` on an id already in the registry returns the
registered Session unchanged, with no credential load, no connection
open, and the whole state (hence the registry entry) identical. -/
theorem createSession_existing_id (st : HelpersState) (id : String)
    (s : SessionEntry) (h : mapGet st.sessions id = some s) :
    createSession st id = (s, st) ∧
    (createSession st id).2.credLoads = st.credLoads ∧
    (createSession st id).2.openCount = st.openCount ∧
    mapGet (createSession st id).2.sessions id = some s := by
  unfold createSession
  rw [h]
  exact ⟨rfl, rfl, rfl, h⟩

/-- Witness for C9 on `oneSessionState`, which registers `"s1"`. -/
theorem createSession_existing_id_witness :
    mapGet oneSessionState.sessions "s1" = some ⟨1⟩ ∧
    (createSession oneSessionState "s1" = (⟨1⟩, oneSessionState) ∧
     (createSession oneSessionState "s1").2.credLoads
       = oneSessionState.credLoads ∧
     (createSession oneSessionState "s1").2.openCount
       = oneSessionState.openCount ∧
     mapGet (createSession oneSessionState "s1").2.sessions "s1"
       = some ⟨1⟩) :=
  ⟨rfl, createSession_existing_id oneSessionState "s1" ⟨1⟩ rfl⟩

/-- C5: a close event with reason `loggedOut` is terminal: the handler
runs `deleteSession(id)`, after which the id is absent from the registry
listing and loading its credentials yields the freshly initialized empty
set (`initAuthCreds`). -/
theorem loggedOut_close_terminal (st : HelpersState) (id : String)
    (hsock now : Nat) (rand : ℚ) :
    handleConnectionUpdate st id hsock
        (closeEvent (some DisconnectReason.loggedOut)) now rand
      = deleteSession st id ∧
    mapHas (handleConnectionUpdate st id hsock
        (closeEvent (some DisconnectReason.loggedOut)) now rand).sessions id
      = false ∧
    id ∉ getActiveSessions (handleConnectionUpdate st id hsock
        (closeEvent (some DisconnectReason.loggedOut)) now rand) ∧
    loadCreds (handleConnectionUpdate st id hsock
        (closeEvent (some DisconnectReason.loggedOut)) now rand).redis id
      = initAuthCreds := by
  have h1 : handleConnectionUpdate st id hsock
      (closeEvent (some DisconnectReason.loggedOut)) now rand
      = deleteSession st id := rfl
  refine ⟨h1, ?_, ?_, ?_⟩
  · rw [h1]
    simp [deleteSession, mapHas, mapGet_mapDelete_self]
  · rw [h1]
    simpa [getActiveSessions, deleteSession] using
      not_mem_mapKeys_mapDelete st.sessions id
  · rw [h1]
    simp [loadCreds, redisHGet, deleteSession, mapGet_mapDelete_self,
      initAuthCreds]

/-- C10: a request whose `x-api-key` header is absent or differs from
the configured key is answered 401 by `apiKeyAuth` without the route
handler running, and the state is untouched. -/
theorem apiKeyAuth_blocks (apiKey : String) (key : Option String)
    (handler : HelpersState → HelpersState × Nat) (st : HelpersState)
    (h : key ≠ some apiKey) :
    processRequest apiKey key handler st
      = { status := 401, state := st, handlerRan := false } ∧
    (processRequest apiKey key handler st).state = st ∧
    (processRequest apiKey key handler st).handlerRan = false := by
  have hrej : apiKeyRejects apiKey key = true := by
    cases key with
    | none => rfl
    | some k =>
        have hk : k ≠ apiKey := fun hk => h (by rw [hk])
        simp [apiKeyRejects, hk]
  refine ⟨?_, ?_, ?_⟩ <;> simp [processRequest, hrej]

/-- Witness for C10: key `"wrong"` against configured key `"secret"`. -/
theorem apiKeyAuth_blocks_witness :
    (some "wrong" ≠ some "secret") ∧
    (processRequest "secret" (some "wrong")
        (fun s => (s, 200)) oneSessionState
      = { status := 401, state := oneSessionState, handlerRan := false } ∧
    (processRequest "secret" (some "wrong")
        (fun s => (s, 200)) oneSessionState).state = oneSessionState ∧
    (processRequest "secret" (some "wrong")
        (fun s => (s, 200)) oneSessionState).handlerRan = false) :=
  ⟨by decide,
   apiKeyAuth_blocks "secret" (some "wrong") (fun s => (s, 200))
     oneSessionState (by decide)⟩

/-- C3 counterexample: in a state with three recorded consecutive
failures, processing a connection-state event reporting `open` leaves
`reconnectState.attempts` at 3 — the handler has no `open` branch, so
the event does not reset it to 0 as the claim states. -/
theorem openEvent_does_not_reset_attempts :
    (mapGet (handleConnectionUpdate midBackoffState "s1" 1 openEvent 50
        0).reconnectionAttempts "s1").map ReconnectInfo.attempts
      = some 3 ∧
    some 3 ≠ some (0 : Nat) := by
  exact ⟨rfl, by decide⟩

/-- C3 amended: an `open` connection-state event leaves the state (hence
`reconnectState`) unchanged; `reconnectState` is instead cleared when a
replacement socket is installed — by the restart-required branch and by
a successful scheduled-reconnect callback — and `attempts` grows, by
exactly one, only in the transient-close branch once the backoff window
has passed, i.e. only while failures are consecutive. -/
theorem reconnectState_reset_on_replacement (st : HelpersState)
    (id : String) (hsock now : Nat) (rand : ℚ)
    (hS : shouldAttemptReconnection st id now = true) :
    handleConnectionUpdate st id hsock openEvent now rand = st ∧
    mapGet (fireReconnectTimer st id true).reconnectionAttempts id
      = none ∧
    mapGet (handleConnectionUpdate st id hsock
        (closeEvent (some DisconnectReason.restartRequired)) now
        rand).reconnectionAttempts id = none ∧
    (mapGet (handleConnectionUpdate st id hsock
        (closeEvent (some DisconnectReason.timedOut)) now
        rand).reconnectionAttempts id).map ReconnectInfo.attempts
      = some
        (((mapGet st.reconnectionAttempts id).getD ⟨0, 0, 0⟩).attempts
          + 1) := by
  refine ⟨rfl, ?_, ?_, ?_⟩
  · simp [fireReconnectTimer, makeConfiggedWASocket,
      mapGet_mapDelete_self]
  · simp [handleConnectionUpdate, deliverQr, closeEvent,
      makeConfiggedWASocket, mapGet_mapDelete_self]
  · simp only [handleConnectionUpdate, deliverQr, closeEvent]
    norm_num [DisconnectReason.timedOut, DisconnectReason.restartRequired,
      DisconnectReason.loggedOut, isTransientReason,
      DisconnectReason.connectionClosed, DisconnectReason.connectionLost,
      DisconnectReason.connectionReplaced]
    rw [hS]
    simp [mapGet_mapSet_self, endOldSock_reconnectionAttempts]

/-- Witness for C3 amended on `oneSessionState` (no backoff entry, so a
reconnection attempt is allowed). -/
theorem reconnectState_reset_on_replacement_witness :
    shouldAttemptReconnection oneSessionState "s1" 1000 = true ∧
    (handleConnectionUpdate oneSessionState "s1" 1 openEvent 1000 0
      = oneSessionState ∧
    mapGet (fireReconnectTimer oneSessionState "s1"
        true).reconnectionAttempts "s1" = none ∧
    mapGet (handleConnectionUpdate oneSessionState "s1" 1
        (closeEvent (some DisconnectReason.restartRequired)) 1000
        0).reconnectionAttempts "s1" = none ∧
    (mapGet (handleConnectionUpdate oneSessionState "s1" 1
        (closeEvent (some DisconnectReason.timedOut)) 1000
        0).reconnectionAttempts "s1").map ReconnectInfo.attempts
      = some
        (((mapGet oneSessionState.reconnectionAttempts "s1").getD
            ⟨0, 0, 0⟩).attempts + 1)) :=
  ⟨rfl, reconnectState_reset_on_replacement oneSessionState "s1" 1 1000 0
    rfl⟩

/-- C4 (evidence of the bug): from `oneSessionState`, a transient close
at t = 1000 schedules a reconnect timer; `deleteSession("s1")` then
removes the session but leaves the timer pending (the source calls no
`clearTimeout` and the callback never checks that the session is still
registered); when the stale timer fires it opens a new socket and
re-inserts the deleted session into the registry. -/
theorem staleTimer_resurrects_deleted_session :
    mapHas (deleteSession (handleConnectionUpdate oneSessionState "s1" 1
        (closeEvent (some DisconnectReason.timedOut)) 1000 0)
        "s1").sessions "s1" = false ∧
    (deleteSession (handleConnectionUpdate oneSessionState "s1" 1
        (closeEvent (some DisconnectReason.timedOut)) 1000 0)
        "s1").pendingTimers = ["s1"] ∧
    mapHas (fireReconnectTimer (deleteSession (handleConnectionUpdate
        oneSessionState "s1" 1
        (closeEvent (some DisconnectReason.timedOut)) 1000 0) "s1")
        "s1" true).sessions "s1" = true := by
  refine ⟨rfl, rfl, rfl⟩

/-- Helper: a transient close inside the backoff window leaves the state
untouched. -/
theorem transient_close_skip (st : HelpersState) (id : String)
    (hsock now : Nat) (rand : ℚ) (r : Nat) (info : ReconnectInfo)
    (hr : isTransientReason (some r) = true)
    (hI : mapGet st.reconnectionAttempts id = some info)
    (hLt : (now : ℚ) - info.lastAttempt < info.backoffMs) :
    handleConnectionUpdate st id hsock (closeEvent (some r)) now rand
      = st := by
  have hS : shouldAttemptReconnection st id now = false := by
    unfold shouldAttemptReconnection
    rw [hI]
    simp only [decide_eq_false_iff_not]
    exact not_le.mpr hLt
  have hcases : r = 408 ∨ r = 428 ∨ r = 440 := by
    have := hr
    simp only [isTransientReason, DisconnectReason.timedOut,
      DisconnectReason.connectionClosed, DisconnectReason.connectionLost,
      DisconnectReason.connectionReplaced, decide_eq_true_eq,
      Option.some_inj] at this
    tauto
  have h515 : ¬ (some r = some DisconnectReason.restartRequired) := by
    simp only [DisconnectReason.restartRequired, Option.some_inj]
    rcases hcases with h | h | h <;> omega
  have h401 : ¬ (some r = some DisconnectReason.loggedOut) := by
    simp only [DisconnectReason.loggedOut, Option.some_inj]
    rcases hcases with h | h | h <;> omega
  simp [handleConnectionUpdate, deliverQr, closeEvent, h515, h401, hr,
    hS]

/-- The state after one transient close from `oneSessionState` at
t = 1000: one scheduled reconnect, `attempts = 1`, last attempt at 1000
with a fresh backoff. -/
theorem firstClose_state :
    handleConnectionUpdate oneSessionState "s1" 1
        (closeEvent (some DisconnectReason.timedOut)) 1000 0
      = { oneSessionState with
          reconnectionAttempts :=
            [("s1", { attempts := 1, lastAttempt := 1000,
                      backoffMs := calculateBackoff 1 0 })],
          pendingTimers := ["s1"] } := rfl

/-- C6: a transient close (`timedOut`, `connectionClosed`,
`connectionLost`, `connectionReplaced`) arriving while the time since
the last attempt is under the current `backoffMs` schedules nothing —
the handler leaves the state untouched; and in the scenario of three
`timedOut` closes in immediate succession from a fresh session, only the
first schedules a reconnect (one pending timer, `attempts = 1`), the
second and third being skipped as within-window no-ops. -/
theorem withinBackoff_close_skipped (st : HelpersState) (id : String)
    (hsock now : Nat) (rand : ℚ) (r : Nat) (info : ReconnectInfo)
    (hr : isTransientReason (some r) = true)
    (hI : mapGet st.reconnectionAttempts id = some info)
    (hLt : (now : ℚ) - info.lastAttempt < info.backoffMs) :
    handleConnectionUpdate st id hsock (closeEvent (some r)) now rand
      = st ∧
    (handleConnectionUpdate oneSessionState "s1" 1
        (closeEvent (some DisconnectReason.timedOut)) 1000
        0).pendingTimers.length = 1 ∧
    (mapGet (handleConnectionUpdate oneSessionState "s1" 1
        (closeEvent (some DisconnectReason.timedOut)) 1000
        0).reconnectionAttempts "s1").map ReconnectInfo.attempts
      = some 1 ∧
    handleConnectionUpdate (handleConnectionUpdate oneSessionState "s1" 1
        (closeEvent (some DisconnectReason.timedOut)) 1000 0) "s1" 1
        (closeEvent (some DisconnectReason.timedOut)) 1000 0
      = handleConnectionUpdate oneSessionState "s1" 1
        (closeEvent (some DisconnectReason.timedOut)) 1000 0 ∧
    handleConnectionUpdate (handleConnectionUpdate
        (handleConnectionUpdate oneSessionState "s1" 1
          (closeEvent (some DisconnectReason.timedOut)) 1000 0) "s1" 1
        (closeEvent (some DisconnectReason.timedOut)) 1000 0) "s1" 1
        (closeEvent (some DisconnectReason.timedOut)) 1000 0
      = handleConnectionUpdate oneSessionState "s1" 1
        (closeEvent (some DisconnectReason.timedOut)) 1000 0 := by
  have hlt : ((1000 : Nat) : ℚ) - ((1000 : Nat) : ℚ)
      < calculateBackoff 1 0 := by
    norm_num [calculateBackoff, backoffDelay]
  have hskip :
      handleConnectionUpdate (handleConnectionUpdate oneSessionState
          "s1" 1 (closeEvent (some DisconnectReason.timedOut)) 1000 0)
          "s1" 1 (closeEvent (some DisconnectReason.timedOut)) 1000 0
        = handleConnectionUpdate oneSessionState "s1" 1
          (closeEvent (some DisconnectReason.timedOut)) 1000 0 := by
    rw [firstClose_state]
    exact transient_close_skip _ "s1" 1 1000 0 DisconnectReason.timedOut
      { attempts := 1, lastAttempt := 1000,
        backoffMs := calculateBackoff 1 0 } (by decide) rfl hlt
  refine ⟨transient_close_skip st id hsock now rand r info hr hI hLt,
    rfl, rfl, hskip, ?_⟩
  rw [hskip]
  exact hskip

/-- Witness for C6 on `midBackoffState`: reason `timedOut` (408), the
last attempt was at t = 0 with a 2000 ms backoff, and the next close
arrives at t = 100, inside the window. -/
theorem withinBackoff_close_skipped_witness :
    isTransientReason (some 408) = true ∧
    mapGet midBackoffState.reconnectionAttempts "s1"
      = some { attempts := 3, lastAttempt := 0, backoffMs := 2000 } ∧
    ((100 : ℚ) - (0 : Nat) < (2000 : ℚ)) ∧
    handleConnectionUpdate midBackoffState "s1" 1 (closeEvent (some 408))
        100 0 = midBackoffState := by
  refine ⟨by decide, rfl, by norm_num, ?_⟩
  exact (withinBackoff_close_skipped midBackoffState "s1" 1 100 0 408
    { attempts := 3, lastAttempt := 0, backoffMs := 2000 } (by decide)
    rfl (by norm_num)).1

/-- C8 counterexample: from `oneSessionState`, a close with the
unrecognized reason 500 deletes the session instead of treating it as
transient — afterwards `"s1"` is no longer registered, no connection was
opened and no reconnect was scheduled, contradicting the claim that the
session remains registered with its last closed handle. -/
theorem unknownReason_close_deletes :
    mapHas (handleConnectionUpdate oneSessionState "s1" 1
        (closeEvent (some 500)) 0 0).sessions "s1" = false ∧
    (handleConnectionUpdate oneSessionState "s1" 1
        (closeEvent (some 500)) 0 0).openCount
      = oneSessionState.openCount ∧
    (handleConnectionUpdate oneSessionState "s1" 1
        (closeEvent (some 500)) 0 0).pendingTimers = [] := by
  refine ⟨rfl, rfl, rfl⟩

/-- C8 amended: in `src/helpers.js` a close event with an unrecognized
reason (anything outside restart-required, logged-out and the four
transient codes, including a missing status code) is terminal exactly
like logged-out: the handler runs `deleteSession`, removing the session
from the registry and erasing its credentials, with no reconnection
attempt (no socket opened, no timer scheduled).  The
treat-as-transient-and-keep-registered behaviour the claim describes
appears only in an older variant of the file. -/
theorem unknownReason_close_terminal (st : HelpersState) (id : String)
    (hsock now : Nat) (rand : ℚ) (r : Option Nat)
    (hT : isTransientReason r = false)
    (h515 : r ≠ some DisconnectReason.restartRequired)
    (h401 : r ≠ some DisconnectReason.loggedOut) :
    handleConnectionUpdate st id hsock (closeEvent r) now rand
      = deleteSession st id ∧
    mapHas (handleConnectionUpdate st id hsock (closeEvent r) now
        rand).sessions id = false ∧
    loadCreds (handleConnectionUpdate st id hsock (closeEvent r) now
        rand).redis id = initAuthCreds ∧
    (handleConnectionUpdate st id hsock (closeEvent r) now rand).openCount
      = st.openCount ∧
    (handleConnectionUpdate st id hsock (closeEvent r) now
        rand).pendingTimers = st.pendingTimers := by
  have h1 : handleConnectionUpdate st id hsock (closeEvent r) now rand
      = deleteSession st id := by
    simp [handleConnectionUpdate, deliverQr, closeEvent, h515, h401, hT]
  refine ⟨h1, ?_, ?_, ?_, ?_⟩ <;> rw [h1]
  · simp [deleteSession, mapHas, mapGet_mapDelete_self]
  · simp [loadCreds, redisHGet, deleteSession, mapGet_mapDelete_self,
      initAuthCreds]
  · simp [deleteSession]
  · simp [deleteSession]

/-- Witness for C8 amended at reason 500 on `oneSessionState`. -/
theorem unknownReason_close_terminal_witness :
    isTransientReason (some 500) = false ∧
    (some 500 ≠ some DisconnectReason.restartRequired) ∧
    (some 500 ≠ some DisconnectReason.loggedOut) ∧
    handleConnectionUpdate oneSessionState "s1" 1 (closeEvent (some 500))
        0 0 = deleteSession oneSessionState "s1" :=
  ⟨by decide, by decide, by decide,
   (unknownReason_close_terminal oneSessionState "s1" 1 0 0 (some 500)
     (by decide) (by decide) (by decide)).1⟩

/-- Helper: a token strictly above every logged token was never
resolved. -/
theorem countResolved_zero_of_bound (l : List (Nat × String)) (w : Nat)
    (h : ∀ p ∈ l, p.1 < w) :
    (l.filter fun p => decide (p.1 = w)).length = 0 := by
  induction l with
  | nil => rfl
  | cons p rest ih =>
      have hp : ¬ (p.1 = w) := by
        have := h p (List.mem_cons_self p rest)
        omega
      rw [List.filter_cons, if_neg (by simpa using hp)]
      exact ih fun p2 hp2 => h p2 (List.mem_cons_of_mem _ hp2)

/-- Helper: once a promise token is resolved exactly once, is no longer
the waiter, and can never be handed out again, any further interaction
with the bridge keeps its resolution count at one. -/
theorem qrOps_keep_count (w : Nat) (ops : List QrOp) :
    ∀ b : QrBridge, countResolved b w = 1 → b.waiter ≠ some w →
      w < b.nextWaiter → countResolved (runQrOps b ops) w = 1 := by
  induction ops with
  | nil =>
      intro b h1 _ _
      simpa [runQrOps] using h1
  | cons op rest ih =>
      intro b h1 h2 h3
      have hstep : countResolved (applyQrOp b op) w = 1 ∧
          (applyQrOp b op).waiter ≠ some w ∧
          w < (applyQrOp b op).nextWaiter := by
        cases op with
        | register =>
            refine ⟨h1, ?_, ?_⟩
            · simp only [applyQrOp, getNewQr, ne_eq, Option.some_inj]
              omega
            · simp only [applyQrOp, getNewQr]
              omega
        | deliver q2 =>
            by_cases hq2 : q2 = ""
            · simp only [applyQrOp, deliverChallenge, hq2]
              exact ⟨h1, h2, h3⟩
            · cases hw : b.waiter with
              | none =>
                  have hb : applyQrOp b (QrOp.deliver q2) = b := by
                    simp [applyQrOp, deliverChallenge, hq2, hw]
                  rw [hb]
                  exact ⟨h1, h2, h3⟩
              | some w0 =>
                  have hw0 : ¬ (w0 = w) := fun he => h2 (by rw [hw, he])
                  refine ⟨?_, ?_, ?_⟩
                  · simpa [countResolved, applyQrOp, deliverChallenge,
                      hq2, hw, List.filter_cons, hw0] using h1
                  · simp [applyQrOp, deliverChallenge, hq2, hw]
                  · simpa [applyQrOp, deliverChallenge, hq2, hw] using h3
      have hrest := ih (applyQrOp b op) hstep.1 hstep.2.1 hstep.2.2
      simpa [runQrOps] using hrest

/-- C7: on the QR bridge, (i) delivering a challenge with no registered
waiter changes nothing (the value is dropped); (ii) a waiter registered
before delivery holds the token `b.nextWaiter` and observes the
delivered value exactly once — and its count stays exactly one across
any later deliveries and registrations; (iii) registering again before
resolution replaces the waiter (the slot holds only the newest token, so
at most one waiter is outstanding), the replaced waiter never observes a
value, and the newest observes it exactly once. -/
theorem qrBridge_single_slot (b : QrBridge) (q : String)
    (ops : List QrOp) (hwf : qrWf b) (hq : q ≠ "") :
    deliverChallenge ⟨none, b.resolved, b.nextWaiter⟩ q
      = ⟨none, b.resolved, b.nextWaiter⟩ ∧
    (getNewQr b).1 = b.nextWaiter ∧
    countResolved (deliverChallenge (getNewQr b).2 q) b.nextWaiter = 1 ∧
    countResolved (runQrOps (deliverChallenge (getNewQr b).2 q) ops)
      b.nextWaiter = 1 ∧
    (getNewQr (getNewQr b).2).2.waiter = some (b.nextWaiter + 1) ∧
    countResolved (deliverChallenge (getNewQr (getNewQr b).2).2 q)
      b.nextWaiter = 0 ∧
    countResolved (deliverChallenge (getNewQr (getNewQr b).2).2 q)
      (b.nextWaiter + 1) = 1 := by
  have hzero := countResolved_zero_of_bound b.resolved b.nextWaiter hwf.1
  have hbound : ∀ p ∈ b.resolved, p.1 < b.nextWaiter + 1 := by
    intro p hp
    have := hwf.1 p hp
    omega
  have hz2 := countResolved_zero_of_bound b.resolved (b.nextWaiter + 1)
    hbound
  have hdeliv : deliverChallenge (getNewQr b).2 q
      = { waiter := none, resolved := (b.nextWaiter, q) :: b.resolved,
          nextWaiter := b.nextWaiter + 1 } := by
    simp [deliverChallenge, getNewQr, hq]
  have hdeliv2 : deliverChallenge (getNewQr (getNewQr b).2).2 q
      = { waiter := none,
          resolved := (b.nextWaiter + 1, q) :: b.resolved,
          nextWaiter := b.nextWaiter + 2 } := by
    simp [deliverChallenge, getNewQr, hq]
  have hcount1 :
      countResolved (deliverChallenge (getNewQr b).2 q) b.nextWaiter
        = 1 := by
    rw [hdeliv]
    unfold countResolved
    rw [List.filter_cons, if_pos (by simp), List.length_cons]
    rw [hzero]
  refine ⟨by simp [deliverChallenge, hq], rfl, hcount1, ?_, rfl, ?_, ?_⟩
  · apply qrOps_keep_count b.nextWaiter ops _ hcount1
    · rw [hdeliv]
      simp
    · rw [hdeliv]
      simp
  · rw [hdeliv2]
    unfold countResolved
    rw [List.filter_cons, if_neg (by simp)]
    exact hzero
  · rw [hdeliv2]
    unfold countResolved
    rw [List.filter_cons, if_pos (by simp), List.length_cons]
    rw [hz2]

/-- Witness for C7 on the empty bridge with challenge `"QR"` and the
later interactions register-then-deliver. -/
theorem qrBridge_single_slot_witness :
    qrWf { waiter := none, resolved := [], nextWaiter := 0 } ∧
    ("QR" : String) ≠ "" ∧
    (deliverChallenge ⟨none, [], 0⟩ "QR" = ⟨none, [], 0⟩ ∧
     (getNewQr ⟨none, [], 0⟩).1 = 0 ∧
     countResolved (deliverChallenge (getNewQr ⟨none, [], 0⟩).2 "QR") 0
       = 1 ∧
     countResolved (runQrOps (deliverChallenge
         (getNewQr ⟨none, [], 0⟩).2 "QR")
         [QrOp.register, QrOp.deliver "z"]) 0 = 1 ∧
     (getNewQr (getNewQr ⟨none, [], 0⟩).2).2.waiter = some 1 ∧
     countResolved (deliverChallenge
         (getNewQr (getNewQr ⟨none, [], 0⟩).2).2 "QR") 0 = 0 ∧
     countResolved (deliverChallenge
         (getNewQr (getNewQr ⟨none, [], 0⟩).2).2 "QR") 1 = 1) :=
  ⟨⟨by simp, by simp⟩, by decide,
   qrBridge_single_slot ⟨none, [], 0⟩ "QR"
     [QrOp.register, QrOp.deliver "z"] ⟨by simp, by simp⟩ (by decide)⟩

end Padma
